import Mathlib

/-!
# Consul discovery configuration (`services/consul/config.go`)

A shallow embedding of the `consul` package's `Config` type and its methods
(`NewConfig`, `ApplyConditionalDefaults`, `Validate`, `Prom`, `Service`, `ID`),
followed by theorems about them.

Modelling conventions:

* A Go `string` is a Lean `String`, i.e. a sequence of Unicode code points
  (Go strings are taken to be valid UTF-8).
* A Go slice `[]T` is a `Slice T`: `none` is the `nil` slice, `some l` a
  non-nil slice with elements `l`.
* A Go pointer `*T` stored in a data structure is an `Option T` (`none` is
  the `nil` pointer).
* A Go `error` is an `Option String`: `none` is `nil`, `some msg` an error
  whose message is `msg`.
* A method with a pointer receiver that mutates its receiver is a function
  from the old value to the new value.
-/

namespace consul

/-! ## Go runtime and library pieces used by the package -/

/-- Go slice: `none` is the `nil` slice, `some l` a non-nil slice. -/
abbrev Slice (α : Type) : Type := Option (List α)

/-- Go's builtin `len` on a slice (the `nil` slice has length 0). -/
def Slice.len {α : Type} : Slice α → Nat
  | none => 0
  | some l => l.length

/-- Go `error` value: `none` is `nil`. -/
abbrev GoError : Type := Option String

/-- Go's `unicode.IsSpace`: in Latin-1 the code points `'\t'`, `'\n'`, `'\v'`,
`'\f'`, `'\r'`, `' '`, U+0085 and U+00A0; beyond Latin-1 the code points with
the Unicode `White_Space` property. -/
def IsSpace (r : Char) : Bool :=
  let n := r.toNat
  if n ≤ 0xFF then
    n == 0x09 || n == 0x0A || n == 0x0B || n == 0x0C || n == 0x0D || n == 0x20
      || n == 0x85 || n == 0xA0
  else
    n == 0x1680 || (0x2000 ≤ n && n ≤ 0x200A) || n == 0x2028 || n == 0x2029
      || n == 0x202F || n == 0x205F || n == 0x3000

/-- Go's `strings.TrimLeftFunc`: drop the leading code points satisfying `f`. -/
def TrimLeftFunc (s : String) (f : Char → Bool) : String :=
  ⟨s.data.dropWhile f⟩

/-- Go's `strings.TrimRightFunc`: drop the trailing code points satisfying `f`. -/
def TrimRightFunc (s : String) (f : Char → Bool) : String :=
  ⟨s.data.rdropWhile f⟩

/-- Go's `strings.TrimFunc`: `TrimRightFunc(TrimLeftFunc(s, f), f)`. -/
def TrimFunc (s : String) (f : Char → Bool) : String :=
  TrimRightFunc (TrimLeftFunc s f) f

/-- Go's `strings.TrimSpace`: all leading and trailing white space removed,
as defined by Unicode. -/
def TrimSpace (s : String) : String :=
  TrimFunc s IsSpace

/-! ## The Prometheus `config` types written by `Prom` -/

/-- Prometheus `config.TLSConfig`. -/
structure TLSConfig where
  CAFile : String := ""
  CertFile : String := ""
  KeyFile : String := ""
  ServerName : String := ""
  InsecureSkipVerify : Bool := false
  deriving DecidableEq, Repr

/-- Prometheus `config.ConsulSDConfig`: the fields set by `Prom`. -/
structure ConsulSDConfig where
  Server : String := ""
  Token : String := ""
  Datacenter : String := ""
  TagSeparator : String := ""
  Scheme : String := ""
  Username : String := ""
  Password : String := ""
  Services : Slice String := none
  TLSConfig : TLSConfig := {}
  deriving DecidableEq, Repr

/-- Prometheus `config.ServiceDiscoveryConfig`: the list of Consul discovery
blocks (a slice of pointers) and, as `others`, the lists of every other
discovery kind, of a type `σ` left abstract. -/
structure ServiceDiscoveryConfig (σ : Type) where
  ConsulSDConfigs : Slice (Option ConsulSDConfig)
  others : σ

/-- Prometheus `config.ScrapeConfig`: its `ServiceDiscoveryConfig` field and,
as `others`, every other field of the record, of a type `ρ` left abstract. -/
structure ScrapeConfig (σ ρ : Type) where
  ServiceDiscoveryConfig : ServiceDiscoveryConfig σ
  others : ρ

/-! ## `services/consul/config.go` -/

/-- Config is a Consul service discovery configuration. Field defaults are
the Go zero values, so that a structure instance reads like a Go composite
literal. -/
structure Config where
  Enabled : Bool := false
  Name : String := ""
  Address : String := ""
  Token : String := ""
  Datacenter : String := ""
  TagSeparator : String := ""
  Scheme : String := ""
  Username : String := ""
  Password : String := ""
  Services : Slice String := none
  SSLCA : String := ""
  SSLCert : String := ""
  SSLKey : String := ""
  SSLServerName : String := ""
  InsecureSkipVerify : Bool := false
  deriving DecidableEq, Repr

/-- NewConfig creates a new Consul discovery with default values. -/
def NewConfig : Config :=
  { Address := "127.0.0.1:8500"
    TagSeparator := ","
    Scheme := "http"
    Services := some [] }

/-- ApplyConditionalDefaults adds defaults to Consul: the receiver after the
call, as a function of the receiver before it. -/
def ApplyConditionalDefaults (c : Config) : Config :=
  let c := if c.TagSeparator = "" then { c with TagSeparator := "," } else c
  let c := if c.Scheme = "" then { c with Scheme := "http" } else c
  c

/-- The error built by `fmt.Errorf("consul discovery must be given a name")`. -/
def errNameRequired : String := "consul discovery must be given a name"

/-- The error built by
`fmt.Errorf("consul discovery requires a server address")`. -/
def errAddressRequired : String := "consul discovery requires a server address"

/-- Validate validates the consul configuration. -/
def Validate (c : Config) : GoError :=
  if c.Name = "" then
    some errNameRequired
  else if TrimSpace c.Address = "" then
    some errAddressRequired
  else
    none

/-- The body of `Validate` with its receiver variable threaded through: the
value held by the receiver `c` (a copy of the caller's instance, the receiver
being passed by value) when the body returns, paired with the returned error.
No statement of the body assigns to `c`. -/
def ValidateExec (c : Config) : Config × GoError :=
  if c.Name = "" then
    (c, some errNameRequired)
  else if TrimSpace c.Address = "" then
    (c, some errAddressRequired)
  else
    (c, none)

/-- Prom creates a prometheus configuration from Consul configuration: the
target record after the call, as a function of the receiver and of the
target record before it. -/
def Prom {σ ρ : Type} (c : Config) (conf : ScrapeConfig σ ρ) : ScrapeConfig σ ρ :=
  { conf with
    ServiceDiscoveryConfig :=
      { conf.ServiceDiscoveryConfig with
        ConsulSDConfigs := some [
          some
            { Server := c.Address
              Token := c.Token
              Datacenter := c.Datacenter
              TagSeparator := c.TagSeparator
              Scheme := c.Scheme
              Username := c.Username
              Password := c.Password
              Services := c.Services
              TLSConfig :=
                { CAFile := c.SSLCA
                  CertFile := c.SSLCert
                  KeyFile := c.SSLKey
                  ServerName := c.SSLServerName
                  InsecureSkipVerify := c.InsecureSkipVerify } } ] } }

/-- Service return discoverer type. -/
def Service (_c : Config) : String :=
  "consul"

/-- ID returns the discoverers name. -/
def ID (c : Config) : String :=
  c.Name

/-! ## Auxiliary facts about trimming -/

theorem dropWhile_eq_nil_iff_all {α : Type} (p : α → Bool) (l : List α) :
    l.dropWhile p = [] ↔ ∀ x ∈ l, p x = true := by
  induction l with
  | nil => simp
  | cons a t ih =>
    by_cases ha : p a = true
    · simp [List.dropWhile_cons, ha, ih]
    · simp [List.dropWhile_cons, ha]

theorem string_eq_empty_iff (s : String) : s = "" ↔ s.data = [] := by
  constructor
  · intro h
    subst h
    rfl
  · intro h
    cases s
    simp_all

/-- The string `TrimSpace s` is the empty string exactly when every code point of `s` is
white space (in particular when `s` is empty). -/
theorem TrimSpace_eq_empty_iff (s : String) :
    TrimSpace s = "" ↔ ∀ ch ∈ s.data, IsSpace ch = true := by
  rw [string_eq_empty_iff]
  show (s.data.dropWhile IsSpace).rdropWhile IsSpace = [] ↔ _
  rw [List.rdropWhile_eq_nil_iff]
  constructor
  · intro h
    by_contra hne
    have hne2 : s.data.dropWhile IsSpace ≠ [] := by
      intro h0
      exact hne ((dropWhile_eq_nil_iff_all IsSpace s.data).1 h0)
    have hhead := List.head_dropWhile_not IsSpace s.data hne2
    have := h _ (List.head_mem hne2)
    simp [hhead] at this
  · intro h x hx
    rw [(dropWhile_eq_nil_iff_all IsSpace s.data).2 h] at hx
    simp at hx

/-! ## Sanity checks of the embedding on concrete inputs -/

example : Validate { Name := "svc1", Address := "   " } = some errAddressRequired := by decide
example : Validate { Name := "svc1", Address := " 10.0.0.1:8500 " } = none := by decide
example : Validate { Name := "", Address := "127.0.0.1:8500" } = some errNameRequired := by decide
example : TrimSpace " \t10.0.0.1:8500 \n" = "10.0.0.1:8500" := by decide
example : TrimSpace "a b" = "a b" := by decide
example : ApplyConditionalDefaults {} = { TagSeparator := ",", Scheme := "http" } := by decide
example : ApplyConditionalDefaults { TagSeparator := ";", Scheme := "https" }
    = { TagSeparator := ";", Scheme := "https" } := by decide

/-! ## Validate -/

/-- C1: `Validate c` returns no error if and only if `c.Name` is not the empty
string and `c.Address`, trimmed by `strings.TrimSpace`, is not the empty
string. -/
theorem Validate_nil_iff (c : Config) :
    Validate c = none ↔ c.Name ≠ "" ∧ TrimSpace c.Address ≠ "" := by
  unfold Validate
  by_cases hn : c.Name = ""
  · simp [hn]
  · by_cases ha : TrimSpace c.Address = ""
    · simp [hn, ha]
    · simp [hn, ha]

/-- C2: when `c.Name` is empty, `Validate c` fails with the name-required
error whatever the other fields are; the name check comes first, so the error
is never the address-required one, also when the address is empty or all
white space. -/
theorem Validate_empty_name (c : Config) (h : c.Name = "") :
    Validate c = some "consul discovery must be given a name"
      ∧ Validate c ≠ some "consul discovery requires a server address" := by
  have hv : Validate c = some "consul discovery must be given a name" := by
    unfold Validate
    simp [h, errNameRequired]
  refine ⟨hv, ?_⟩
  rw [hv]
  decide

theorem Validate_empty_name_witness :
    ({ Name := "", Address := " \t " } : Config).Name = ""
      ∧ (Validate { Name := "", Address := " \t " }
            = some "consul discovery must be given a name"
          ∧ Validate { Name := "", Address := " \t " }
            ≠ some "consul discovery requires a server address") :=
  ⟨rfl, Validate_empty_name { Name := "", Address := " \t " } rfl⟩

/-- C3: when `c.Name` is non-empty and `c.Address` is empty or consists only
of white-space code points (those removed by `strings.TrimSpace`),
`Validate c` fails with the address-required error. -/
theorem Validate_blank_address (c : Config) (hn : c.Name ≠ "")
    (ha : ∀ ch ∈ c.Address.data, IsSpace ch = true) :
    Validate c = some "consul discovery requires a server address" := by
  have ht : TrimSpace c.Address = "" := (TrimSpace_eq_empty_iff c.Address).2 ha
  unfold Validate
  simp [hn, ht, errAddressRequired]

theorem Validate_blank_address_witness :
    ({ Name := "svc1", Address := " \t\n" } : Config).Name ≠ ""
      ∧ (∀ ch ∈ ({ Name := "svc1", Address := " \t\n" } : Config).Address.data,
          IsSpace ch = true)
      ∧ Validate { Name := "svc1", Address := " \t\n" }
          = some "consul discovery requires a server address" :=
  ⟨by decide, by decide,
    Validate_blank_address { Name := "svc1", Address := " \t\n" } (by decide) (by decide)⟩

/-! ## Prom -/

/-- C4: for every `Config c` and every target `conf`, validated or not, after
`Prom c conf` the target's Consul discovery list is a non-nil list of exactly
one non-nil block, whose fields equal the fields of `c` one for one, the
nested TLS record included; `Services` is carried over as it is (an empty
sequence stays an empty sequence). -/
theorem Prom_single_block {σ ρ : Type} (c : Config) (conf : ScrapeConfig σ ρ) :
    ∃ b : ConsulSDConfig,
      (Prom c conf).ServiceDiscoveryConfig.ConsulSDConfigs = some [some b]
        ∧ Slice.len (Prom c conf).ServiceDiscoveryConfig.ConsulSDConfigs = 1
        ∧ b.Server = c.Address
        ∧ b.Token = c.Token
        ∧ b.Datacenter = c.Datacenter
        ∧ b.TagSeparator = c.TagSeparator
        ∧ b.Scheme = c.Scheme
        ∧ b.Username = c.Username
        ∧ b.Password = c.Password
        ∧ b.Services = c.Services
        ∧ b.TLSConfig.CAFile = c.SSLCA
        ∧ b.TLSConfig.CertFile = c.SSLCert
        ∧ b.TLSConfig.KeyFile = c.SSLKey
        ∧ b.TLSConfig.ServerName = c.SSLServerName
        ∧ b.TLSConfig.InsecureSkipVerify = c.InsecureSkipVerify :=
  ⟨_, rfl, rfl, rfl, rfl, rfl, rfl, rfl, rfl, rfl, rfl, rfl, rfl, rfl, rfl, rfl⟩

/-- C5: `Prom` replaces, it does not append: for two targets that differ only
in their pre-existing Consul discovery blocks, the Consul discovery list after
`Prom` is the same and has length 1; and every part of a target other than its
Consul discovery list is left unchanged by `Prom`. -/
theorem Prom_replaces {σ ρ : Type} (c : Config) (conf1 conf2 : ScrapeConfig σ ρ)
    (hsd : conf1.ServiceDiscoveryConfig.others = conf2.ServiceDiscoveryConfig.others)
    (hrest : conf1.others = conf2.others) :
    (Prom c conf1).ServiceDiscoveryConfig.ConsulSDConfigs
        = (Prom c conf2).ServiceDiscoveryConfig.ConsulSDConfigs
      ∧ Slice.len (Prom c conf1).ServiceDiscoveryConfig.ConsulSDConfigs = 1
      ∧ Prom c conf1 = Prom c conf2
      ∧ (Prom c conf1).ServiceDiscoveryConfig.others = conf1.ServiceDiscoveryConfig.others
      ∧ (Prom c conf1).others = conf1.others := by
  refine ⟨rfl, rfl, ?_, rfl, rfl⟩
  simp only [Prom, hsd, hrest]

theorem Prom_replaces_witness :
    (⟨⟨none, 7⟩, true⟩ : ScrapeConfig Nat Bool).ServiceDiscoveryConfig.others
        = (⟨⟨some [some { Server := "old:1" }, none, some {}], 7⟩, true⟩ :
            ScrapeConfig Nat Bool).ServiceDiscoveryConfig.others
      ∧ (⟨⟨none, 7⟩, true⟩ : ScrapeConfig Nat Bool).others
        = (⟨⟨some [some { Server := "old:1" }, none, some {}], 7⟩, true⟩ :
            ScrapeConfig Nat Bool).others
      ∧ (Prom { Name := "svc1", Address := "10.0.0.1:8500" }
            (⟨⟨none, 7⟩, true⟩ : ScrapeConfig Nat Bool)).ServiceDiscoveryConfig.ConsulSDConfigs
          = (Prom { Name := "svc1", Address := "10.0.0.1:8500" }
              (⟨⟨some [some { Server := "old:1" }, none, some {}], 7⟩, true⟩ :
                ScrapeConfig Nat Bool)).ServiceDiscoveryConfig.ConsulSDConfigs :=
  ⟨rfl, rfl,
    (Prom_replaces { Name := "svc1", Address := "10.0.0.1:8500" }
      (⟨⟨none, 7⟩, true⟩ : ScrapeConfig Nat Bool)
      (⟨⟨some [some { Server := "old:1" }, none, some {}], 7⟩, true⟩ : ScrapeConfig Nat Bool)
      rfl rfl).1⟩

/-! ## ApplyConditionalDefaults -/

/-- C6: `ApplyConditionalDefaults` is idempotent: applying it twice in a row
gives exactly the same `Config` as applying it once. -/
theorem ApplyConditionalDefaults_idempotent (c : Config) :
    ApplyConditionalDefaults (ApplyConditionalDefaults c) = ApplyConditionalDefaults c := by
  unfold ApplyConditionalDefaults
  by_cases ht : c.TagSeparator = "" <;> by_cases hs : c.Scheme = "" <;> simp [ht, hs]

/-- C7: after `ApplyConditionalDefaults` the `TagSeparator` is `","` if it was
empty and unchanged otherwise, and the `Scheme` is `"http"` if it was empty and
unchanged otherwise; each of the two depends only on its own previous value. -/
theorem ApplyConditionalDefaults_fields (c : Config) :
    (ApplyConditionalDefaults c).TagSeparator
        = (if c.TagSeparator = "" then "," else c.TagSeparator)
      ∧ (ApplyConditionalDefaults c).Scheme
        = (if c.Scheme = "" then "http" else c.Scheme) := by
  unfold ApplyConditionalDefaults
  by_cases ht : c.TagSeparator = "" <;> by_cases hs : c.Scheme = "" <;> simp [ht, hs]

/-- C8: `ApplyConditionalDefaults` leaves every field other than `TagSeparator`
and `Scheme` unchanged. -/
theorem ApplyConditionalDefaults_frame (c : Config) :
    (ApplyConditionalDefaults c).Enabled = c.Enabled
      ∧ (ApplyConditionalDefaults c).Name = c.Name
      ∧ (ApplyConditionalDefaults c).Address = c.Address
      ∧ (ApplyConditionalDefaults c).Token = c.Token
      ∧ (ApplyConditionalDefaults c).Datacenter = c.Datacenter
      ∧ (ApplyConditionalDefaults c).Username = c.Username
      ∧ (ApplyConditionalDefaults c).Password = c.Password
      ∧ (ApplyConditionalDefaults c).Services = c.Services
      ∧ (ApplyConditionalDefaults c).SSLCA = c.SSLCA
      ∧ (ApplyConditionalDefaults c).SSLCert = c.SSLCert
      ∧ (ApplyConditionalDefaults c).SSLKey = c.SSLKey
      ∧ (ApplyConditionalDefaults c).SSLServerName = c.SSLServerName
      ∧ (ApplyConditionalDefaults c).InsecureSkipVerify = c.InsecureSkipVerify := by
  unfold ApplyConditionalDefaults
  by_cases ht : c.TagSeparator = "" <;> by_cases hs : c.Scheme = "" <;> simp [ht, hs]

/-- C9: for every `Config c`, whatever values a loader left in it, after
`ApplyConditionalDefaults` both `TagSeparator` and `Scheme` are non-empty
strings. -/
theorem ApplyConditionalDefaults_nonempty (c : Config) :
    (ApplyConditionalDefaults c).TagSeparator ≠ ""
      ∧ (ApplyConditionalDefaults c).Scheme ≠ "" := by
  unfold ApplyConditionalDefaults
  by_cases ht : c.TagSeparator = "" <;> by_cases hs : c.Scheme = "" <;> simp [ht, hs]

/-! ## NewConfig -/

/-- C10: `NewConfig` returns a `Config` with `Address = "127.0.0.1:8500"`,
`TagSeparator = ","`, `Scheme = "http"`, `Services` an empty non-nil sequence,
and every other field at its zero value (`Enabled` and `InsecureSkipVerify`
false, all other strings empty). -/
theorem NewConfig_fields :
    NewConfig.Address = "127.0.0.1:8500"
      ∧ NewConfig.TagSeparator = ","
      ∧ NewConfig.Scheme = "http"
      ∧ NewConfig.Services = some []
      ∧ NewConfig.Services ≠ none
      ∧ Slice.len NewConfig.Services = 0
      ∧ NewConfig.Enabled = false
      ∧ NewConfig.InsecureSkipVerify = false
      ∧ NewConfig.Name = ""
      ∧ NewConfig.Token = ""
      ∧ NewConfig.Datacenter = ""
      ∧ NewConfig.Username = ""
      ∧ NewConfig.Password = ""
      ∧ NewConfig.SSLCA = ""
      ∧ NewConfig.SSLCert = ""
      ∧ NewConfig.SSLKey = ""
      ∧ NewConfig.SSLServerName = "" := by
  refine ⟨rfl, rfl, rfl, rfl, ?_, rfl, rfl, rfl, rfl, rfl, rfl, rfl, rfl, rfl, rfl, rfl, rfl⟩
  decide

/-! ## The default, conditional-default, validate pipeline and the accessors -/

example : Validate { NewConfig with Name := "svc1" } = none := by decide
example : Validate { Name := "   ", Address := "10.0.0.1:8500" } = none := by decide
example : Validate (ApplyConditionalDefaults { Name := "a", Address := " " })
    = some errAddressRequired := by decide
example : ID { Name := "  a " } = "  a " := by decide
example : Service { Name := "x", Enabled := true } = "consul" := by decide

/-- C11: a minimal valid record validates: for every non-empty name `n`, the
`Config` obtained from `NewConfig` by setting only `Name := n` (the address
left at the default `"127.0.0.1:8500"`) passes `Validate` with no error. -/
theorem Validate_NewConfig_with_name (n : String) (hn : n ≠ "") :
    Validate { NewConfig with Name := n } = none
      ∧ ({ NewConfig with Name := n } : Config).Address = "127.0.0.1:8500" := by
  refine ⟨?_, rfl⟩
  have ha : TrimSpace "127.0.0.1:8500" ≠ "" := by decide
  simp only [Validate, NewConfig]
  rw [if_neg hn, if_neg ha]

theorem Validate_NewConfig_with_name_witness :
    "svc1" ≠ ""
      ∧ (Validate { NewConfig with Name := "svc1" } = none
        ∧ ({ NewConfig with Name := "svc1" } : Config).Address = "127.0.0.1:8500") :=
  ⟨by decide, Validate_NewConfig_with_name "svc1" (by decide)⟩

/-- C12: `Validate` checks no field other than `Name` and `Address`: two
`Config`s with the same `Name` and the same `Address` get the same outcome
(both succeed or both fail with the same error) whatever their other fields;
and the receiver holds the same value when `Validate` returns as when it was
called, the returned error being that of `Validate`. -/
theorem Validate_depends_on_name_address (c1 c2 : Config)
    (hname : c1.Name = c2.Name) (haddr : c1.Address = c2.Address) :
    Validate c1 = Validate c2
      ∧ (ValidateExec c1).1 = c1 ∧ (ValidateExec c1).2 = Validate c1
      ∧ (ValidateExec c2).1 = c2 ∧ (ValidateExec c2).2 = Validate c2 := by
  have hexec : ∀ c : Config, (ValidateExec c).1 = c ∧ (ValidateExec c).2 = Validate c := by
    intro c
    unfold ValidateExec Validate
    by_cases hn : c.Name = ""
    · simp [hn]
    · by_cases ha : TrimSpace c.Address = ""
      · simp [hn, ha]
      · simp [hn, ha]
  refine ⟨?_, (hexec c1).1, (hexec c1).2, (hexec c2).1, (hexec c2).2⟩
  unfold Validate
  rw [hname, haddr]

theorem Validate_depends_on_name_address_witness :
    ({ Name := "svc1", Address := " " } : Config).Name
        = ({ Name := "svc1", Address := " ", Token := "t", Password := "p", Scheme := "https",
             Services := some ["web"], SSLCA := "/ca.pem", Enabled := true,
             InsecureSkipVerify := true } : Config).Name
      ∧ ({ Name := "svc1", Address := " " } : Config).Address
        = ({ Name := "svc1", Address := " ", Token := "t", Password := "p", Scheme := "https",
             Services := some ["web"], SSLCA := "/ca.pem", Enabled := true,
             InsecureSkipVerify := true } : Config).Address
      ∧ Validate { Name := "svc1", Address := " " }
        = Validate { Name := "svc1", Address := " ", Token := "t", Password := "p",
                     Scheme := "https", Services := some ["web"], SSLCA := "/ca.pem",
                     Enabled := true, InsecureSkipVerify := true } :=
  ⟨rfl, rfl,
    (Validate_depends_on_name_address { Name := "svc1", Address := " " }
      { Name := "svc1", Address := " ", Token := "t", Password := "p", Scheme := "https",
        Services := some ["web"], SSLCA := "/ca.pem", Enabled := true,
        InsecureSkipVerify := true } rfl rfl).1⟩

/-- C13: for every `Config c`, `Service c` is the literal string `"consul"`,
regardless of any field value. -/
theorem Service_eq_consul (c : Config) : Service c = "consul" := rfl

/-- C14: for every `Config c`, `ID c` is exactly `c.Name`, untrimmed and
unmodified, and it depends on no other field: any `Config` with the same
`Name`, whatever its other fields, has the same `ID`. -/
theorem ID_eq_Name (c other : Config) :
    ID c = c.Name ∧ ID { other with Name := c.Name } = ID c :=
  ⟨rfl, rfl⟩

/-- C15: the name check is untrimmed while the address check is trimmed: for a
non-empty string `w` of white space only, a `Config` whose `Name` is `w` and
whose trimmed `Address` is non-empty passes `Validate`, whereas a `Config`
with a non-empty `Name` whose `Address` is `w` fails with the address-required
error. -/
theorem Validate_name_untrimmed_address_trimmed (w : String) (c1 c2 : Config)
    (hw : w ≠ "") (hspace : ∀ ch ∈ w.data, IsSpace ch = true)
    (h1n : c1.Name = w) (h1a : TrimSpace c1.Address ≠ "")
    (h2n : c2.Name ≠ "") (h2a : c2.Address = w) :
    Validate c1 = none
      ∧ Validate c2 = some "consul discovery requires a server address" := by
  have ht : TrimSpace c2.Address = "" := by
    rw [h2a]
    exact (TrimSpace_eq_empty_iff w).2 hspace
  have h1 : c1.Name ≠ "" := by
    rw [h1n]
    exact hw
  unfold Validate
  constructor
  · rw [if_neg h1, if_neg h1a]
  · rw [if_neg h2n, if_pos ht]
    rfl

theorem Validate_name_untrimmed_address_trimmed_witness :
    "   " ≠ ""
      ∧ (∀ ch ∈ "   ".data, IsSpace ch = true)
      ∧ Validate { Name := "   ", Address := "10.0.0.1:8500" } = none
      ∧ Validate { Name := "svc1", Address := "   " }
          = some "consul discovery requires a server address" :=
  ⟨by decide, by decide,
    Validate_name_untrimmed_address_trimmed "   "
      { Name := "   ", Address := "10.0.0.1:8500" } { Name := "svc1", Address := "   " }
      (by decide) (by decide) rfl (by decide) (by decide) rfl⟩

/-- C16: conditional defaulting never changes the validation verdict: for
every `Config c`, `Validate` after `ApplyConditionalDefaults` gives the same
outcome (success, or the same error) as `Validate` before it. -/
theorem Validate_ApplyConditionalDefaults (c : Config) :
    Validate (ApplyConditionalDefaults c) = Validate c := by
  have hn : (ApplyConditionalDefaults c).Name = c.Name := by
    unfold ApplyConditionalDefaults
    by_cases ht : c.TagSeparator = "" <;> by_cases hs : c.Scheme = "" <;> simp [ht, hs]
  have ha : (ApplyConditionalDefaults c).Address = c.Address := by
    unfold ApplyConditionalDefaults
    by_cases ht : c.TagSeparator = "" <;> by_cases hs : c.Scheme = "" <;> simp [ht, hs]
  unfold Validate
  rw [hn, ha]

/-- C17: the output of `NewConfig` is a fixed point of conditional defaulting
and is not yet valid: `ApplyConditionalDefaults NewConfig` equals `NewConfig`
in every field, and `Validate NewConfig` fails with the name-required error,
the default `Name` being empty. -/
theorem NewConfig_fixed_point_not_valid :
    ApplyConditionalDefaults NewConfig = NewConfig
      ∧ NewConfig.Name = ""
      ∧ Validate NewConfig = some "consul discovery must be given a name" := by
  refine ⟨?_, rfl, ?_⟩
  · decide
  · decide

end consul
